import Mathlib

/-!
Verification of the Cherry Servers `sshkey` Ansible module
(`plugins/modules/sshkey.py`) and of the generic resource manager
(`plugins/module_utils/resource_managers/resource_manager.py`).

The HTTP client is the external collaborator
`send_request(method, path, timeout, **params) -> (status, body)`; it is
modelled as a function parameter `api`.  Response bodies carrying only
string values are modelled as association lists (`Dict`); the Python
`str()` rendering of a dict used in f-strings is modelled by `reprDict`
(quoting of keys and values is not reproduced, which no proved property
depends on).  `module.exit_json` / `module.fail_json` terminate the
invocation, so each embedded operation returns an `Outcome` together with
the list of HTTP requests it issued.
-/

namespace CherryServers

/-- An association-list dictionary: field name to string value. -/
abbrev Dict := List (String × String)

/-- HTTP method of a request issued through the client. -/
inductive Method where
  | GET
  | POST
  | PUT
  | DELETE
deriving DecidableEq, Repr

/-- One request issued via `send_request`: method, path, and the `label=` /
`key=` body parameters the sshkey module passes (absent parameters are
`none`). -/
structure Request where
  method : Method
  path : String
  body_label : Option String
  body_key : Option String
deriving DecidableEq, Repr

/-- Termination of a module invocation: `exit_json(changed=…, cherryservers_sshkey=…)`
(exit code 0) or `fail_json(msg)` (non-zero exit). -/
inductive Outcome where
  | exitOk (changed : Bool) (record : Option Dict)
  | fail (msg : String)
deriving DecidableEq, Repr

/-- A provider-side SSH key record as stored remotely. -/
structure KeyRecord where
  id : Nat
  label : String
  key : String
  fingerprint : String
  created : String
  updated : String
  href : String
deriving DecidableEq, Repr

/-- The `state` module argument; `argument_spec` restricts it to
`choices: [absent, present]`. -/
inductive State where
  | present
  | absent
deriving DecidableEq, Repr

/-- The module parameters of `sshkey.py` after argument parsing
(`get_module_args`): unset optional parameters are `none`. -/
structure ModuleParams where
  state : State
  label : Option String
  public_key : Option String
  id : Option Nat
  fingerprint : Option String
deriving DecidableEq, Repr

/-- Render one dict entry, for embedding a body in an f-string message. -/
def reprPair (kv : String × String) : String :=
  kv.1 ++ ": " ++ kv.2

/-- Render a dict, standing for Python `str(resp)` inside f-strings. -/
def reprDict (d : Dict) : String :=
  "\x7b" ++ String.intercalate ", " (d.map reprPair) ++ "\x7d"

/-- The canonical dict shape of a looked-up SSH key record (the fields the
provider stores for a key), used for the record returned by the lookup. -/
def keyToDict (k : KeyRecord) : Dict :=
  [("created", k.created), ("fingerprint", k.fingerprint), ("href", k.href),
   ("id", toString k.id), ("key", k.key), ("label", k.label),
   ("updated", k.updated)]

/-- `check_param_state_diff` of `sshkey.py`: true iff `label` is supplied
and differs from the stored label, or `public_key` is supplied and differs
from the stored `key`. -/
def check_param_state_diff (module_params : ModuleParams) (current_state : KeyRecord) : Bool :=
  if Option.any (fun l => l != current_state.label) module_params.label then
    true
  else if Option.any (fun k => k != current_state.key) module_params.public_key then
    true
  else
    false

/-- `create_key` of `sshkey.py`: validation of `label`/`public_key`, then
check-mode early exit, then POST `ssh-keys` expecting status 201. -/
def create_key (api : Request → Nat × Dict) (check_mode : Bool) (p : ModuleParams) :
    Outcome × List Request :=
  if p.label = none ∨ p.public_key = none then
    (.fail "Label and public key are required for creating SSH keys.", [])
  else if check_mode then
    (.exitOk true none, [])
  else
    let req : Request := ⟨.POST, "ssh-keys", p.label, p.public_key⟩
    let (status, resp) := api req
    if status ≠ 201 then
      (.fail ("Failed to create SSH key: " ++ reprDict resp), [req])
    else
      (.exitOk true (some resp), [req])

/-- `update_key` of `sshkey.py`: check-mode early exit, then PUT
`ssh-keys/{key_id}` expecting status 201. -/
def update_key (api : Request → Nat × Dict) (check_mode : Bool) (p : ModuleParams)
    (key_id : Nat) : Outcome × List Request :=
  if check_mode then
    (.exitOk true none, [])
  else
    let req : Request := ⟨.PUT, "ssh-keys/" ++ toString key_id, p.label, p.public_key⟩
    let (status, resp) := api req
    if status ≠ 201 then
      (.fail ("Failed to update SSH key: " ++ reprDict resp), [req])
    else
      (.exitOk true (some resp), [req])

/-- `delete_key` of `sshkey.py`: check-mode early exit, then DELETE
`ssh-keys/{key_id}` expecting status 204. -/
def delete_key (api : Request → Nat × Dict) (check_mode : Bool) (key : KeyRecord) :
    Outcome × List Request :=
  if check_mode then
    (.exitOk true none, [])
  else
    let key_id := key.id
    let req : Request := ⟨.DELETE, "ssh-keys/" ++ toString key_id, none, none⟩
    let (status, _) := api req
    if status ≠ 204 then
      (.fail ("Failed to delete SSH key: " ++ toString key_id), [req])
    else
      (.exitOk true none, [req])

/-- Modelled from the spec: the matching rule of `common.find_resource_unique`
(not under `src/`).  A stored record matches when every supplied identifying
field among `id`, `fingerprint` and `label` (`SSH_IDENTIFYING_KEYS`) equals
the record's value; unset fields constrain nothing. -/
def matches_params (p : ModuleParams) (k : KeyRecord) : Bool :=
  Option.all (fun i => i == k.id) p.id
    && Option.all (fun f => f == k.fingerprint) p.fingerprint
    && Option.all (fun l => l == k.label) p.label

/-- Modelled from the spec: `common.find_resource_unique` (not under `src/`).
It searches candidate resources by the configured identifying fields; no
match yields `none`, a unique match yields the record, and more than one
match fails the operation immediately.  Its GET lookup request is recorded
by `run_module`. -/
def find_resource_unique (p : ModuleParams) (remote : List KeyRecord) :
    Except String (Option KeyRecord) :=
  match remote.filter (matches_params p) with
  | [] => .ok none
  | [k] => .ok (some k)
  | _ => .error "Multiple matching SSH keys found."

/-- The read-only lookup request issued by `find_resource_unique`. -/
def lookup_request : Request := ⟨.GET, "ssh-keys", none, none⟩

/-- `run_module` of `sshkey.py`: lookup, then dispatch on `state`, presence
and diff, delegating to `create_key` / `update_key` / `delete_key`.  The
returned list collects every HTTP request of the invocation, the lookup
included. -/
def run_module (api : Request → Nat × Dict) (check_mode : Bool) (p : ModuleParams)
    (remote : List KeyRecord) : Outcome × List Request :=
  match find_resource_unique p remote with
  | .error msg => (.fail msg, [lookup_request])
  | .ok found =>
    match p.state with
    | .present =>
      match found with
      | some key =>
        if check_param_state_diff p key then
          let (o, reqs) := update_key api check_mode p key.id
          (o, lookup_request :: reqs)
        else if check_mode then
          (.exitOk false none, [lookup_request])
        else
          (.exitOk false (some (keyToDict key)), [lookup_request])
      | none =>
        let (o, reqs) := create_key api check_mode p
        (o, lookup_request :: reqs)
    | .absent =>
      match found with
      | some key =>
        let (o, reqs) := delete_key api check_mode key
        (o, lookup_request :: reqs)
      | none =>
        (.exitOk false none, [lookup_request])

/-- A request is mutating when its method is POST, PUT or DELETE. -/
def is_mutating (r : Request) : Bool :=
  match r.method with
  | .GET => false
  | _ => true

/-- Whether an outcome is a successful exit (`exit_json`, exit code 0). -/
def is_ok : Outcome → Bool
  | .exitOk _ _ => true
  | .fail _ => false

/-- The field names of a dict, in order. -/
def dict_keys (d : Dict) : List String := d.map Prod.fst

/-- `d` has exactly the field names `fs` (as sets). -/
def has_exactly_fields (d : Dict) (fs : List String) : Bool :=
  fs.all (fun f => (dict_keys d).contains f)
    && (dict_keys d).all (fun f => fs.contains f)

/-- The normalized field set of the result contract for an SSH key. -/
def normalized_fields : List String :=
  ["created", "fingerprint", "href", "id", "key", "label", "updated"]

/-- `is_start_of n h`: `n` is an initial segment of `h`. -/
def is_start_of : List Char → List Char → Bool
  | [], _ => true
  | _ :: _, [] => false
  | c :: cs, d :: ds => c == d && is_start_of cs ds

/-- `has_sublist n h`: `n` occurs contiguously inside `h`. -/
def has_sublist (n : List Char) : List Char → Bool
  | [] => n.isEmpty
  | c :: t => is_start_of n (c :: t) || has_sublist n t

/-- `needle` occurs as a substring of `hay`. -/
def str_contains_sub (needle hay : String) : Bool :=
  has_sublist needle.toList hay.toList

/-! ## Resource manager (`resource_manager.py`) -/

/-- A JSON response body of the provider: an object or an array of objects. -/
inductive Body where
  | dict (d : Dict)
  | list (l : List Dict)
deriving DecidableEq, Repr

/-- Render a body, standing for Python `str(response)` inside f-strings. -/
def reprBody : Body → String
  | .dict d => reprDict d
  | .list l => "[" ++ String.intercalate ", " (l.map reprDict) ++ "]"

/-- `RequestTemplate` dataclass: URL pattern, timeout, and the accepted
status codes of one operation. -/
structure RequestTemplate where
  url_template : String
  timeout : Nat
  valid_status_codes : List Nat
deriving DecidableEq, Repr

/-- A request issued by a resource-manager operation: method, formatted
path, and the body parameters of a POST/PUT. -/
structure RmRequest where
  method : Method
  path : String
  params : Dict
deriving DecidableEq, Repr

/-- A concrete `ResourceManager`: the abstract members a subclass supplies
(`name`, `_normalize`, the two GET request templates).  `_normalize` is
declared on dict responses; it is modelled on whole bodies since Python
would apply the override to whatever body arrived. -/
structure ResourceManager where
  name : String
  normalize : Body → Dict
  get_by_id_request : RequestTemplate
  get_by_project_id_request : RequestTemplate

/-- `_build_api_error_msg`: the error message for an unexpected status. -/
def build_api_error_msg (rm : ResourceManager) (operation : String)
    (status_code : Nat) (response : Body) : String :=
  "error " ++ toString status_code ++ " on attempt to " ++ operation
    ++ " for " ++ rm.name ++ ": " ++ reprBody response

/-- `get_by_id`: GET by the by-id template; unexpected status fails with the
formatted message, otherwise the normalized record is returned. -/
def get_by_id (rm : ResourceManager) (api : RmRequest → Nat × Body)
    (resource_id : Nat) : Except String Dict :=
  let t := rm.get_by_id_request
  let (status, resp) := api ⟨.GET, t.url_template.replace "{id}" (toString resource_id), []⟩
  if t.valid_status_codes.contains status then
    .ok (rm.normalize resp)
  else
    .error (build_api_error_msg rm "GET" status resp)

/-- The records iterated over by `get_by_project_id`; a non-array body
would make the Python `for` loop iterate over keys, which the success path
of no proved property reaches. -/
def body_elems : Body → List Dict
  | .list l => l
  | .dict _ => []

/-- `get_by_project_id`: GET by the by-project-id template; unexpected
status fails with the formatted message, otherwise every element of the
response is normalized. -/
def get_by_project_id (rm : ResourceManager) (api : RmRequest → Nat × Body)
    (project_id : Nat) : Except String (List Dict) :=
  let t := rm.get_by_project_id_request
  let (status, resp) := api ⟨.GET, t.url_template.replace "{project_id}" (toString project_id), []⟩
  if t.valid_status_codes.contains status then
    .ok ((body_elems resp).map (fun r => rm.normalize (.dict r)))
  else
    .error (build_api_error_msg rm "GET" status resp)

/-- `post_by_id`: POST with the caller's template and parameters; same
status validation and normalization contract. -/
def post_by_id (rm : ResourceManager) (api : RmRequest → Nat × Body)
    (resource_id : Nat) (request_templ : RequestTemplate) (request_params : Dict) :
    Except String Dict :=
  let (status, resp) := api ⟨.POST, request_templ.url_template.replace "{id}" (toString resource_id), request_params⟩
  if request_templ.valid_status_codes.contains status then
    .ok (rm.normalize resp)
  else
    .error (build_api_error_msg rm "POST" status resp)

/-- `put_by_id`: PUT with the caller's template and parameters; same
status validation and normalization contract. -/
def put_by_id (rm : ResourceManager) (api : RmRequest → Nat × Body)
    (resource_id : Nat) (request_templ : RequestTemplate) (request_params : Dict) :
    Except String Dict :=
  let (status, resp) := api ⟨.PUT, request_templ.url_template.replace "{id}" (toString resource_id), request_params⟩
  if request_templ.valid_status_codes.contains status then
    .ok (rm.normalize resp)
  else
    .error (build_api_error_msg rm "PUT" status resp)

/-- `delete_by_id`: DELETE with the caller's template; status validation
only, no payload. -/
def delete_by_id (rm : ResourceManager) (api : RmRequest → Nat × Body)
    (resource_id : Nat) (request_templ : RequestTemplate) :
    Except String Unit :=
  let (status, resp) := api ⟨.DELETE, request_templ.url_template.replace "{id}" (toString resource_id), []⟩
  if request_templ.valid_status_codes.contains status then
    .ok ()
  else
    .error (build_api_error_msg rm "DELETE" status resp)

/-! ## Concrete fixtures for witnesses and counterexamples -/

/-- A sample stored SSH key. -/
def key1 : KeyRecord := ⟨1, "l1", "k1", "fp1", "t1", "t2", "/ssh-keys/1"⟩

/-- A well-behaved provider: every operation answers its expected status. -/
def api_ok : Request → Nat × Dict := fun r =>
  match r.method with
  | .GET => (200, [])
  | .POST => (201, keyToDict key1)
  | .PUT => (201, keyToDict key1)
  | .DELETE => (204, [])

/-- A provider answering 500 with an error body to every request. -/
def api_fail : Request → Nat × Dict := fun _ => (500, [("error", "oops")])

/-- Parameters matching `key1` with no differing supplied field. -/
def params_noop : ModuleParams := ⟨.present, some "l1", none, some 1, none⟩

/-! ## Theorems -/

/-- C6: `check_param_state_diff` reports a difference if and only if the
caller supplied `label` and it differs from the stored label, or supplied
`public_key` and it differs from the stored key; an unset field never
triggers a diff. -/
theorem c6_diff_iff (p : ModuleParams) (cs : KeyRecord) :
    check_param_state_diff p cs = true ↔
      ((∃ l, p.label = some l ∧ l ≠ cs.label) ∨
       (∃ k, p.public_key = some k ∧ k ≠ cs.key)) := by
  unfold check_param_state_diff
  cases p.label <;> cases p.public_key <;> simp [Option.any]

/-- C1: with `state=present`, a unique matching key and no supplied field
differing from the stored record, the module exits with `changed=false`
and issues only the lookup request, in either execution mode. -/
theorem c1_present_unique_nodiff_noop (api : Request → Nat × Dict) (check_mode : Bool)
    (p : ModuleParams) (remote : List KeyRecord) (key : KeyRecord)
    (hstate : p.state = .present)
    (hfind : find_resource_unique p remote = .ok (some key))
    (hdiff : check_param_state_diff p key = false) :
    (∃ rec, (run_module api check_mode p remote).1 = .exitOk false rec) ∧
      (run_module api check_mode p remote).2 = [lookup_request] ∧
      (run_module api check_mode p remote).2.all (fun r => !is_mutating r) = true := by
  unfold run_module
  cases check_mode <;> simp [hfind, hstate, hdiff, lookup_request, is_mutating]

/-- Witness for C1 at a concrete input. -/
theorem c1_witness :
    (∃ rec, (run_module api_ok false params_noop [key1]).1 = .exitOk false rec) ∧
      (run_module api_ok false params_noop [key1]).2 = [lookup_request] ∧
      (run_module api_ok false params_noop [key1]).2.all (fun r => !is_mutating r) = true :=
  c1_present_unique_nodiff_noop api_ok false params_noop [key1] key1
    (by rfl) (by rfl) (by rfl)

/-- C10: in the no-op branch (`state=present`, unique match, no diff),
check mode exits `changed=false` without the record, while real mode exits
`changed=false` with the looked-up record attached. -/
theorem c10_noop_record_depends_on_mode (api : Request → Nat × Dict)
    (p : ModuleParams) (remote : List KeyRecord) (key : KeyRecord)
    (hstate : p.state = .present)
    (hfind : find_resource_unique p remote = .ok (some key))
    (hdiff : check_param_state_diff p key = false) :
    (run_module api true p remote).1 = .exitOk false none ∧
      (run_module api false p remote).1 = .exitOk false (some (keyToDict key)) := by
  unfold run_module
  simp [hfind, hstate, hdiff]

/-- Witness for C10 at a concrete input. -/
theorem c10_witness :
    (run_module api_ok true params_noop [key1]).1 = .exitOk false none ∧
      (run_module api_ok false params_noop [key1]).1 =
        .exitOk false (some (keyToDict key1)) :=
  c10_noop_record_depends_on_mode api_ok params_noop [key1] key1
    (by rfl) (by rfl) (by rfl)

/-- C4: outside check mode, a create succeeds exactly when the provider
answers 201, an update exactly when it answers 201 (literally 201), and a
delete exactly when it answers 204; any other status is a failure. -/
theorem c4_status_code_contracts (api : Request → Nat × Dict) (p : ModuleParams)
    (key : KeyRecord) (key_id : Nat)
    (hl : p.label ≠ none) (hk : p.public_key ≠ none) :
    (is_ok (create_key api false p).1 = true ↔
        (api ⟨.POST, "ssh-keys", p.label, p.public_key⟩).1 = 201) ∧
      (is_ok (update_key api false p key_id).1 = true ↔
        (api ⟨.PUT, "ssh-keys/" ++ toString key_id, p.label, p.public_key⟩).1 = 201) ∧
      (is_ok (delete_key api false key).1 = true ↔
        (api ⟨.DELETE, "ssh-keys/" ++ toString key.id, none, none⟩).1 = 204) := by
  refine ⟨?_, ?_, ?_⟩
  · unfold create_key
    rw [if_neg (by simp [hl, hk])]
    simp only [Bool.false_eq_true, if_false]
    rcases h : api ⟨.POST, "ssh-keys", p.label, p.public_key⟩ with ⟨s, b⟩
    by_cases hs : s = 201 <;> simp [h, hs, is_ok]
  · unfold update_key
    simp only [Bool.false_eq_true, if_false]
    rcases h : api ⟨.PUT, "ssh-keys/" ++ toString key_id, p.label, p.public_key⟩ with ⟨s, b⟩
    by_cases hs : s = 201 <;> simp [h, hs, is_ok]
  · unfold delete_key
    simp only [Bool.false_eq_true, if_false]
    rcases h : api ⟨.DELETE, "ssh-keys/" ++ toString key.id, none, none⟩ with ⟨s, b⟩
    by_cases hs : s = 204 <;> simp [h, hs, is_ok]

/-- Witness for C4 at a concrete input. -/
theorem c4_witness :
    (is_ok (create_key api_ok false ⟨.present, some "l1", some "k1", none, none⟩).1 = true ↔
        (api_ok ⟨.POST, "ssh-keys", some "l1", some "k1"⟩).1 = 201) ∧
      (is_ok (update_key api_ok false ⟨.present, some "l1", some "k1", none, none⟩ 1).1 = true ↔
        (api_ok ⟨.PUT, "ssh-keys/" ++ toString 1, some "l1", some "k1"⟩).1 = 201) ∧
      (is_ok (delete_key api_ok false key1).1 = true ↔
        (api_ok ⟨.DELETE, "ssh-keys/" ++ toString key1.id, none, none⟩).1 = 204) :=
  c4_status_code_contracts api_ok ⟨.present, some "l1", some "k1", none, none⟩ key1 1
    (by simp) (by simp)

/-- C7: with `state=present`, no matching key, and `label` or `public_key`
unset, the module fails with the validation message before issuing any
mutating request, in check mode and real mode alike. -/
theorem c7_create_validation_before_requests (api : Request → Nat × Dict)
    (check_mode : Bool) (p : ModuleParams) (remote : List KeyRecord)
    (hstate : p.state = .present)
    (hfind : find_resource_unique p remote = .ok none)
    (hmissing : p.label = none ∨ p.public_key = none) :
    (run_module api check_mode p remote).1 =
        .fail "Label and public key are required for creating SSH keys." ∧
      (run_module api check_mode p remote).2.all (fun r => !is_mutating r) = true := by
  unfold run_module create_key
  rw [if_pos hmissing]
  simp [hfind, hstate, lookup_request, is_mutating]

/-- Witness for C7 at a concrete input. -/
theorem c7_witness :
    (run_module api_ok true ⟨.present, some "l9", none, none, none⟩ [key1]).1 =
        .fail "Label and public key are required for creating SSH keys." ∧
      (run_module api_ok true ⟨.present, some "l9", none, none, none⟩ [key1]).2.all
          (fun r => !is_mutating r) = true :=
  c7_create_validation_before_requests api_ok true ⟨.present, some "l9", none, none, none⟩
    [key1] (by rfl) (by rfl) (Or.inr rfl)

/-- C8: when the lookup matches two or more stored records, the invocation
fails immediately and issues no mutating request, in either mode and for
either desired state. -/
theorem c8_ambiguous_lookup_fails (api : Request → Nat × Dict) (check_mode : Bool)
    (p : ModuleParams) (remote : List KeyRecord)
    (hamb : 2 ≤ (remote.filter (matches_params p)).length) :
    (run_module api check_mode p remote).1 = .fail "Multiple matching SSH keys found." ∧
      (run_module api check_mode p remote).2.all (fun r => !is_mutating r) = true := by
  have hfind : find_resource_unique p remote = .error "Multiple matching SSH keys found." := by
    unfold find_resource_unique
    rcases hfil : remote.filter (matches_params p) with _ | ⟨a, _ | ⟨b, t⟩⟩
    · rw [hfil] at hamb; simp at hamb
    · rw [hfil] at hamb; simp at hamb
    · rfl
  unfold run_module
  simp [hfind, lookup_request, is_mutating]

/-- Witness for C8 at a concrete input. -/
theorem c8_witness :
    (run_module api_ok false ⟨.present, some "l1", none, none, none⟩
        [key1, ⟨2, "l1", "k2", "fp2", "t1", "t2", "/ssh-keys/2"⟩]).1 =
        .fail "Multiple matching SSH keys found." ∧
      (run_module api_ok false ⟨.present, some "l1", none, none, none⟩
          [key1, ⟨2, "l1", "k2", "fp2", "t1", "t2", "/ssh-keys/2"⟩]).2.all
          (fun r => !is_mutating r) = true :=
  c8_ambiguous_lookup_fails api_ok false ⟨.present, some "l1", none, none, none⟩
    [key1, ⟨2, "l1", "k2", "fp2", "t1", "t2", "/ssh-keys/2"⟩] (by decide)

/-- Any successful exit of `create_key` reports `changed=true`, and its
validation of `label`/`public_key` has passed. -/
lemma create_key_exitOk (api : Request → Nat × Dict) (check_mode : Bool)
    (p : ModuleParams) (c : Bool) (rec : Option Dict)
    (h : (create_key api check_mode p).1 = .exitOk c rec) :
    c = true ∧ ¬(p.label = none ∨ p.public_key = none) := by
  unfold create_key at h
  split at h
  · simp at h
  · next hv =>
    refine ⟨?_, hv⟩
    split at h
    · injection h with h1 _; exact h1.symm
    · dsimp only at h
      rcases hapi : api ⟨.POST, "ssh-keys", p.label, p.public_key⟩ with ⟨s, b⟩
      rw [hapi] at h
      dsimp only at h
      split at h
      · simp at h
      · injection h with h1 _; exact h1.symm

/-- Any successful exit of `update_key` reports `changed=true`. -/
lemma update_key_exitOk (api : Request → Nat × Dict) (check_mode : Bool)
    (p : ModuleParams) (key_id : Nat) (c : Bool) (rec : Option Dict)
    (h : (update_key api check_mode p key_id).1 = .exitOk c rec) :
    c = true := by
  unfold update_key at h
  split at h
  · injection h with h1 _; exact h1.symm
  · dsimp only at h
    rcases hapi : api ⟨.PUT, "ssh-keys/" ++ toString key_id, p.label, p.public_key⟩ with ⟨s, b⟩
    rw [hapi] at h
    dsimp only at h
    split at h
    · simp at h
    · injection h with h1 _; exact h1.symm

/-- Any successful exit of `delete_key` reports `changed=true`. -/
lemma delete_key_exitOk (api : Request → Nat × Dict) (check_mode : Bool)
    (key : KeyRecord) (c : Bool) (rec : Option Dict)
    (h : (delete_key api check_mode key).1 = .exitOk c rec) :
    c = true := by
  unfold delete_key at h
  split at h
  · injection h with h1 _; exact h1.symm
  · dsimp only at h
    rcases hapi : api ⟨.DELETE, "ssh-keys/" ++ toString key.id, none, none⟩ with ⟨s, b⟩
    rw [hapi] at h
    dsimp only at h
    split at h
    · simp at h
    · injection h with h1 _; exact h1.symm

/-- C5: an invocation in check mode issues no POST, PUT or DELETE request,
and whenever the real run on the same inputs and remote state exits
successfully, the check-mode run exits with the same `changed` value. -/
theorem c5_dry_run_refines_real (api : Request → Nat × Dict) (p : ModuleParams)
    (remote : List KeyRecord) :
    ((run_module api true p remote).2.all (fun r => !is_mutating r) = true) ∧
      (∀ c rec, (run_module api false p remote).1 = .exitOk c rec →
        ∃ rec2, (run_module api true p remote).1 = .exitOk c rec2) := by
  rcases hf : find_resource_unique p remote with msg | found
  · have e1 : run_module api true p remote = (.fail msg, [lookup_request]) := by
      unfold run_module; rw [hf]
    have e0 : run_module api false p remote = (.fail msg, [lookup_request]) := by
      unfold run_module; rw [hf]
    refine ⟨by simp [e1, lookup_request, is_mutating], ?_⟩
    intro c rec h
    rw [e0] at h
    simp at h
  · rcases hst : p.state with _ | _
    · rcases found with _ | key
      · -- present, not found: create
        have e1 : run_module api true p remote =
            ((create_key api true p).1, lookup_request :: (create_key api true p).2) := by
          unfold run_module; rw [hf, hst]
        have e0 : run_module api false p remote =
            ((create_key api false p).1, lookup_request :: (create_key api false p).2) := by
          unfold run_module; rw [hf, hst]
        constructor
        · rw [e1]
          by_cases hv : p.label = none ∨ p.public_key = none
          · have hck : create_key api true p =
                (.fail "Label and public key are required for creating SSH keys.", []) := by
              unfold create_key; rw [if_pos hv]
            rw [hck]
            simp [lookup_request, is_mutating]
          · have hck : create_key api true p = (.exitOk true none, []) := by
              unfold create_key; rw [if_neg hv]; rfl
            rw [hck]
            simp [lookup_request, is_mutating]
        · intro c rec h
          rw [e0] at h
          dsimp only at h
          obtain ⟨hcT, hv⟩ := create_key_exitOk api false p c rec h
          have hck : create_key api true p = (.exitOk true none, []) := by
            unfold create_key; rw [if_neg hv]; rfl
          exact ⟨none, by rw [e1, hck, hcT]⟩
      · -- present, found
        rcases hd : check_param_state_diff p key with _ | _
        · -- no diff: no-op in both modes
          have e1 : run_module api true p remote = (.exitOk false none, [lookup_request]) := by
            unfold run_module; rw [hf, hst]; dsimp only; rw [hd]; rfl
          have e0 : run_module api false p remote =
              (.exitOk false (some (keyToDict key)), [lookup_request]) := by
            unfold run_module; rw [hf, hst]; dsimp only; rw [hd]; rfl
          refine ⟨by simp [e1, lookup_request, is_mutating], ?_⟩
          intro c rec h
          rw [e0] at h
          dsimp only at h
          injection h with h1 _
          exact ⟨none, by rw [e1, h1]⟩
        · -- diff: update
          have e1 : run_module api true p remote = (.exitOk true none, [lookup_request]) := by
            unfold run_module; rw [hf, hst]; dsimp only; rw [hd]; rfl
          have e0 : run_module api false p remote =
              ((update_key api false p key.id).1,
                lookup_request :: (update_key api false p key.id).2) := by
            unfold run_module; rw [hf, hst]; dsimp only; rw [hd]; rfl
          refine ⟨by simp [e1, lookup_request, is_mutating], ?_⟩
          intro c rec h
          rw [e0] at h
          dsimp only at h
          have hcT := update_key_exitOk api false p key.id c rec h
          exact ⟨none, by rw [e1, hcT]⟩
    · rcases found with _ | key
      · -- absent, not found: no-op in both modes
        have e1 : run_module api true p remote = (.exitOk false none, [lookup_request]) := by
          unfold run_module; rw [hf, hst]
        have e0 : run_module api false p remote = (.exitOk false none, [lookup_request]) := by
          unfold run_module; rw [hf, hst]
        refine ⟨by simp [e1, lookup_request, is_mutating], ?_⟩
        intro c rec h
        rw [e0] at h
        dsimp only at h
        injection h with h1 _
        exact ⟨none, by rw [e1, h1]⟩
      · -- absent, found: delete
        have e1 : run_module api true p remote = (.exitOk true none, [lookup_request]) := by
          unfold run_module; rw [hf, hst]; rfl
        have e0 : run_module api false p remote =
            ((delete_key api false key).1, lookup_request :: (delete_key api false key).2) := by
          unfold run_module; rw [hf, hst]
        refine ⟨by simp [e1, lookup_request, is_mutating], ?_⟩
        intro c rec h
        rw [e0] at h
        dsimp only at h
        have hcT := delete_key_exitOk api false key c rec h
        exact ⟨none, by rw [e1, hcT]⟩

/-- Witness for C5 at a concrete input (a real run that creates a key). -/
theorem c5_witness :
    ((run_module api_ok true ⟨.present, some "l9", some "k9", none, none⟩ []).2.all
        (fun r => !is_mutating r) = true) ∧
      (∃ rec2, (run_module api_ok true ⟨.present, some "l9", some "k9", none, none⟩ []).1 =
        .exitOk true rec2) :=
  ⟨(c5_dry_run_refines_real api_ok ⟨.present, some "l9", some "k9", none, none⟩ []).1,
    (c5_dry_run_refines_real api_ok ⟨.present, some "l9", some "k9", none, none⟩ []).2
      true (some (keyToDict key1)) (by rfl)⟩

/-- A raw provider response for a created key carrying an extra field
beyond the documented record shape. -/
def resp_extra : Dict :=
  [("created", "t1"), ("fingerprint", "fp1"), ("href", "/ssh-keys/1"),
   ("id", "1"), ("key", "k1"), ("label", "l1"), ("updated", "t1"),
   ("owner", "acme")]

/-- A provider answering 201 with `resp_extra` to every request. -/
def api_extra : Request → Nat × Dict := fun _ => (201, resp_extra)

/-- Parameters for creating a key. -/
def params_create : ModuleParams := ⟨.present, some "l1", some "k1", none, none⟩

/-- Parameters for deleting the key with id 1. -/
def params_absent : ModuleParams := ⟨.absent, none, none, some 1, none⟩

/-- C2 counterexample: a successful create reports the raw response body,
so when the provider returns an extra `owner` field the reported record
does not have exactly the normalized field set. -/
theorem c2_counterexample :
    (run_module api_extra false params_create []).1 = .exitOk true (some resp_extra) ∧
      has_exactly_fields resp_extra normalized_fields = false := by
  exact ⟨rfl, rfl⟩

/-- C2 amended: on a successful create or update (not in check mode) the
result carries the raw provider response body verbatim as the record; its
field set is whatever the provider returned, with no normalization. -/
theorem c2_amended_raw_body_returned (api : Request → Nat × Dict) :
    (∀ p s b, p.label ≠ none → p.public_key ≠ none →
        api ⟨.POST, "ssh-keys", p.label, p.public_key⟩ = (s, b) → s = 201 →
        (create_key api false p).1 = .exitOk true (some b)) ∧
      (∀ p key_id s b,
        api ⟨.PUT, "ssh-keys/" ++ toString key_id, p.label, p.public_key⟩ = (s, b) → s = 201 →
        (update_key api false p key_id).1 = .exitOk true (some b)) := by
  constructor
  · intro p s b hl hk hapi hs
    unfold create_key
    rw [if_neg (by simp [hl, hk]), if_neg Bool.false_ne_true]
    dsimp only
    rw [hapi]
    dsimp only
    rw [if_neg (fun hn => hn hs)]
  · intro p key_id s b hapi hs
    unfold update_key
    rw [if_neg Bool.false_ne_true]
    dsimp only
    rw [hapi]
    dsimp only
    rw [if_neg (fun hn => hn hs)]

/-- Witness for the amended C2 at a concrete input. -/
theorem c2_amended_witness :
    (create_key api_extra false params_create).1 = .exitOk true (some resp_extra) ∧
      (update_key api_extra false params_create 1).1 = .exitOk true (some resp_extra) :=
  ⟨(c2_amended_raw_body_returned api_extra).1 params_create 201 resp_extra
      (by decide) (by decide) rfl rfl,
    (c2_amended_raw_body_returned api_extra).2 params_create 1 201 resp_extra rfl rfl⟩

/-- C3 counterexample: a failed delete exits with a message that contains
neither the HTTP status code (500) nor the raw response body, only the
key id. -/
theorem c3_counterexample :
    (run_module api_fail false params_absent [key1]).1 =
        .fail "Failed to delete SSH key: 1" ∧
      str_contains_sub "500" "Failed to delete SSH key: 1" = false ∧
      str_contains_sub (reprDict [("error", "oops")]) "Failed to delete SSH key: 1" = false := by
  exact ⟨rfl, rfl, rfl⟩

/-- C3 amended: every validation or API failure exits non-zero with a
human-readable message; create and update failures embed the raw response
body but not the status code, a delete failure embeds only the key id, and
validation failures report a fixed message. -/
theorem c3_amended_failure_messages (api : Request → Nat × Dict) :
    (∀ p s b, p.label ≠ none → p.public_key ≠ none →
        api ⟨.POST, "ssh-keys", p.label, p.public_key⟩ = (s, b) → s ≠ 201 →
        (create_key api false p).1 = .fail ("Failed to create SSH key: " ++ reprDict b)) ∧
      (∀ p key_id s b,
        api ⟨.PUT, "ssh-keys/" ++ toString key_id, p.label, p.public_key⟩ = (s, b) → s ≠ 201 →
        (update_key api false p key_id).1 = .fail ("Failed to update SSH key: " ++ reprDict b)) ∧
      (∀ key s b, api ⟨.DELETE, "ssh-keys/" ++ toString (KeyRecord.id key), none, none⟩ = (s, b) → s ≠ 204 →
        (delete_key api false key).1 = .fail ("Failed to delete SSH key: " ++ toString (KeyRecord.id key))) ∧
      (∀ check_mode p, (p.label = none ∨ p.public_key = none) →
        (create_key api check_mode p).1 =
          .fail "Label and public key are required for creating SSH keys.") := by
  refine ⟨?_, ?_, ?_, ?_⟩
  · intro p s b hl hk hapi hs
    unfold create_key
    rw [if_neg (by simp [hl, hk]), if_neg Bool.false_ne_true]
    dsimp only
    rw [hapi]
    dsimp only
    rw [if_pos hs]
  · intro p key_id s b hapi hs
    unfold update_key
    rw [if_neg Bool.false_ne_true]
    dsimp only
    rw [hapi]
    dsimp only
    rw [if_pos hs]
  · intro key s b hapi hs
    unfold delete_key
    rw [if_neg Bool.false_ne_true]
    dsimp only
    rw [hapi]
    dsimp only
    rw [if_pos hs]
  · intro check_mode p hv
    unfold create_key
    rw [if_pos hv]

/-- Witness for the amended C3 at concrete inputs. -/
theorem c3_amended_witness :
    (create_key api_fail false params_create).1 =
        .fail ("Failed to create SSH key: " ++ reprDict [("error", "oops")]) ∧
      (update_key api_fail false params_create 1).1 =
        .fail ("Failed to update SSH key: " ++ reprDict [("error", "oops")]) ∧
      (delete_key api_fail false key1).1 =
        .fail ("Failed to delete SSH key: " ++ toString (KeyRecord.id key1)) ∧
      (create_key api_fail true ⟨.present, none, none, none, none⟩).1 =
        .fail "Label and public key are required for creating SSH keys." :=
  ⟨(c3_amended_failure_messages api_fail).1 params_create 500 [("error", "oops")]
      (by decide) (by decide) rfl (by decide),
    (c3_amended_failure_messages api_fail).2.1 params_create 1 500 [("error", "oops")]
      rfl (by decide),
    (c3_amended_failure_messages api_fail).2.2.1 key1 500 [("error", "oops")]
      rfl (by decide),
    (c3_amended_failure_messages api_fail).2.2.2 true ⟨.present, none, none, none, none⟩
      (Or.inl rfl)⟩

/-- C9: every resource-manager operation that receives a status outside the
accepted set fails with exactly
`error {status} on attempt to {operation} for {resource_name}: {body}`,
as built by `build_api_error_msg`. -/
theorem c9_api_error_msg_format (rm : ResourceManager) (api : RmRequest → Nat × Body)
    (resource_id project_id : Nat) (t : RequestTemplate) (params : Dict) :
    (∀ s b, api ⟨.GET, rm.get_by_id_request.url_template.replace "{id}" (toString resource_id), []⟩ = (s, b) →
        rm.get_by_id_request.valid_status_codes.contains s = false →
        get_by_id rm api resource_id = .error (build_api_error_msg rm "GET" s b)) ∧
      (∀ s b, api ⟨.GET, rm.get_by_project_id_request.url_template.replace "{project_id}" (toString project_id), []⟩ = (s, b) →
        rm.get_by_project_id_request.valid_status_codes.contains s = false →
        get_by_project_id rm api project_id = .error (build_api_error_msg rm "GET" s b)) ∧
      (∀ s b, api ⟨.POST, t.url_template.replace "{id}" (toString resource_id), params⟩ = (s, b) →
        t.valid_status_codes.contains s = false →
        post_by_id rm api resource_id t params = .error (build_api_error_msg rm "POST" s b)) ∧
      (∀ s b, api ⟨.PUT, t.url_template.replace "{id}" (toString resource_id), params⟩ = (s, b) →
        t.valid_status_codes.contains s = false →
        put_by_id rm api resource_id t params = .error (build_api_error_msg rm "PUT" s b)) ∧
      (∀ s b, api ⟨.DELETE, t.url_template.replace "{id}" (toString resource_id), []⟩ = (s, b) →
        t.valid_status_codes.contains s = false →
        delete_by_id rm api resource_id t = .error (build_api_error_msg rm "DELETE" s b)) := by
  refine ⟨?_, ?_, ?_, ?_, ?_⟩ <;> intro s b hapi hc
  · unfold get_by_id
    dsimp only
    rw [hapi]
    dsimp only
    rw [if_neg (by rw [hc]; exact Bool.false_ne_true)]
  · unfold get_by_project_id
    dsimp only
    rw [hapi]
    dsimp only
    rw [if_neg (by rw [hc]; exact Bool.false_ne_true)]
  · unfold post_by_id
    dsimp only
    rw [hapi]
    dsimp only
    rw [if_neg (by rw [hc]; exact Bool.false_ne_true)]
  · unfold put_by_id
    dsimp only
    rw [hapi]
    dsimp only
    rw [if_neg (by rw [hc]; exact Bool.false_ne_true)]
  · unfold delete_by_id
    dsimp only
    rw [hapi]
    dsimp only
    rw [if_neg (by rw [hc]; exact Bool.false_ne_true)]

/-- A concrete resource manager for the SSH key resource type. -/
def rm_test : ResourceManager :=
  ⟨"ssh_key", fun _ => [], ⟨"ssh-keys/{id}", 10, [200]⟩,
    ⟨"projects/{project_id}/ssh-keys", 10, [200]⟩⟩

/-- A provider answering 500 with an error object to every request. -/
def rm_api_fail : RmRequest → Nat × Body := fun _ => (500, .dict [("error", "oops")])

/-- A request template for mutating operations on `ssh-keys/{id}`. -/
def mutate_templ : RequestTemplate := ⟨"ssh-keys/{id}", 10, [201]⟩

/-- Witness for C9 at concrete inputs. -/
theorem c9_witness :
    get_by_id rm_test rm_api_fail 7 =
        .error (build_api_error_msg rm_test "GET" 500 (.dict [("error", "oops")])) ∧
      get_by_project_id rm_test rm_api_fail 3 =
        .error (build_api_error_msg rm_test "GET" 500 (.dict [("error", "oops")])) ∧
      post_by_id rm_test rm_api_fail 7 mutate_templ [("label", "l1")] =
        .error (build_api_error_msg rm_test "POST" 500 (.dict [("error", "oops")])) ∧
      put_by_id rm_test rm_api_fail 7 mutate_templ [("label", "l1")] =
        .error (build_api_error_msg rm_test "PUT" 500 (.dict [("error", "oops")])) ∧
      delete_by_id rm_test rm_api_fail 7 mutate_templ =
        .error (build_api_error_msg rm_test "DELETE" 500 (.dict [("error", "oops")])) :=
  ⟨(c9_api_error_msg_format rm_test rm_api_fail 7 3 mutate_templ [("label", "l1")]).1
      500 (.dict [("error", "oops")]) rfl (by decide),
    (c9_api_error_msg_format rm_test rm_api_fail 7 3 mutate_templ [("label", "l1")]).2.1
      500 (.dict [("error", "oops")]) rfl (by decide),
    (c9_api_error_msg_format rm_test rm_api_fail 7 3 mutate_templ [("label", "l1")]).2.2.1
      500 (.dict [("error", "oops")]) rfl (by decide),
    (c9_api_error_msg_format rm_test rm_api_fail 7 3 mutate_templ [("label", "l1")]).2.2.2.1
      500 (.dict [("error", "oops")]) rfl (by decide),
    (c9_api_error_msg_format rm_test rm_api_fail 7 3 mutate_templ [("label", "l1")]).2.2.2.2
      500 (.dict [("error", "oops")]) rfl (by decide)⟩

end CherryServers
